import Mathlib

/-!
Shallow embedding of the route-planning core of the `wms` Django backend
(`routes`, `scheduled_request`, `on_demand` apps), together with theorems
checking the natural-language specification against it.

Conventions of the embedding:
* Django char/status fields are `String`s holding the same literals as the
  Python source (`"pending"`, `"in_progress"`, ...).
* Decimal/float quantities are rationals (`ℚ`); Python `int(x)` truncation of
  a non-negative ratio is modelled as natural-number division.
* Timestamps (`timezone.now()`) are opaque naturals passed in by the caller.
* Geometric distance computations (`GEOSGeometry.distance`, `geopy.geodesic`)
  are kept abstract: every function that measures distance takes a
  `dist : Point → Point → ℚ` parameter (meters for geodesic uses; the raw
  value of `loc1.distance(loc2)` for the route-metrics use).
* Django ORM writes are explicit state passing; the overridden `Route.save`
  (which re-derives distance, duration, completion percent and status after
  every save) is the function `routeSave`.
-/

namespace WMS

/-- A GIS point; `x` is longitude, `y` is latitude (GeoDjango convention). -/
structure Point where
  x : ℚ
  y : ℚ
deriving DecidableEq

/-- The slice of an `OnDemandRequest` / `ScheduledRequest` row that the route
code reads: its `request_status` and its (nullable) `location`. -/
structure LinkedRequest where
  request_status : String
  location : Option Point
deriving DecidableEq

/-- `routes.models.RouteStop`: order, optional links to the two request kinds,
its own location, expected service minutes, actual end, and status.
The source model has no `client` field (a fact several views ignore). -/
structure RouteStop where
  order : ℕ
  ondemand_request : Option LinkedRequest
  scheduled_request : Option LinkedRequest
  location : Point
  expected_minutes : ℕ
  actual_end : Option ℕ
  status : String
deriving DecidableEq

/-- `routes.models.Route`: the fields read or written by the embedded
operations. `estimated_duration_min` is the stored `DurationField` expressed
in minutes. -/
structure Route where
  status : String
  completion_percent : ℤ
  total_distance_km : ℚ
  estimated_duration_min : ℚ
  actual_start : Option ℕ
  actual_end : Option ℕ
  stops : List RouteStop
deriving DecidableEq

/-- `collector.models.Collector`: the fields touched by the embedded views.
The source model has no `incentive_balance` field (so `auto_close`'s attempt
to persist one fails; see `auto_close`). -/
structure Collector where
  total_collections : ℤ
  last_known_latitude : Option ℚ
  last_known_longitude : Option ℚ
deriving DecidableEq

/-- Insert a stop into a list sorted by ascending `order` (stable). -/
def insertByOrder (s : RouteStop) : List RouteStop → List RouteStop
  | [] => [s]
  | t :: ts => if s.order ≤ t.order then s :: t :: ts else t :: insertByOrder s ts

/-- Stable sort of stops by ascending `order`: the ORM read
`self.stops.all().order_by('order')`. -/
def sortByOrder : List RouteStop → List RouteStop
  | [] => []
  | s :: ss => insertByOrder s (sortByOrder ss)

/-- The location used for a stop in `Route.update_distance_and_duration`:
the linked on-demand request location if present, else the linked scheduled
request location if present, else the stop's own location. -/
def stopLoc (s : RouteStop) : Point :=
  match s.ondemand_request.bind (fun q => q.location) with
  | some l => l
  | none =>
    match s.scheduled_request.bind (fun q => q.location) with
    | some l => l
    | none => s.location

/-- The pairwise loop of `update_distance_and_duration`: for consecutive
stops, add `loc1.distance(loc2) / 1000`. -/
def consecDist (dist : Point → Point → ℚ) : List RouteStop → ℚ
  | a :: b :: rest => dist (stopLoc a) (stopLoc b) / 1000 + consecDist dist (b :: rest)
  | _ => 0

/-- `sum([s.expected_minutes for s in stops if s.expected_minutes])`:
the stop-time sum, skipping falsy (zero) values exactly as the source does. -/
def sumExpected (stops : List RouteStop) : ℕ :=
  ((stops.filter (fun s => s.expected_minutes ≠ 0)).map (fun s => s.expected_minutes)).sum

/-- `round(x, 3)`: round to three decimal places. -/
def round3 (x : ℚ) : ℚ := ((round (x * 1000) : ℤ) : ℚ) / 1000

/-- `Route.update_distance_and_duration` (routes/models.py lines 55-93):
with fewer than two stops both analytics are zeroed; otherwise distance is
the pairwise sum (rounded to 3 dp) and duration is travel time at 40 km/h
plus the stop-time sum. -/
def update_distance_and_duration (dist : Point → Point → ℚ) (r : Route) : Route :=
  let stops := sortByOrder r.stops
  if stops.length < 2 then
    { r with total_distance_km := 0, estimated_duration_min := 0 }
  else
    let total_distance := consecDist dist stops
    let travel_time_minutes := total_distance / 40 * 60
    { r with
      total_distance_km := round3 total_distance,
      estimated_duration_min := travel_time_minutes + (sumExpected stops : ℚ) }

/-- Truth of `req and req.request_status == "completed"` for an optional
linked request. -/
def reqCompleted : Option LinkedRequest → Bool
  | some q => q.request_status = "completed"
  | none => false

/-- The if/elif/elif chain of `Route.update_completion_status` that decides
whether one stop counts as completed. -/
def countsCompleted (s : RouteStop) : Bool :=
  if reqCompleted s.ondemand_request then true
  else if reqCompleted s.scheduled_request then true
  else s.status = "completed"

/-- Number of stops of a list that `update_completion_status` counts as
completed. -/
def completedCount (stops : List RouteStop) : ℕ :=
  (stops.filter (fun s => countsCompleted s)).length

/-- `Route.update_completion_status` (routes/models.py lines 95-126).
`int((completed_stops / stops_total) * 100)` truncates toward zero; on
non-negative inputs this is the floor, modelled by natural division. -/
def update_completion_status (r : Route) : Route :=
  let stops_total := r.stops.length
  if stops_total = 0 then
    { r with completion_percent := 0 }
  else
    let completed_stops := completedCount r.stops
    let r1 : Route := { r with completion_percent := ((completed_stops * 100) / stops_total : ℕ) }
    if r1.status = "cancelled" then r1
    else if r1.completion_percent = 100 then { r1 with status := "completed" }
    else if completed_stops > 0 then { r1 with status := "in_progress" }
    else if r1.status = "draft" then r1
    else { r1 with status := "assigned" }

/-- The overridden `Route.save` (routes/models.py lines 130-134): every save
re-runs `update_distance_and_duration` then `update_completion_status` and
persists the derived fields.  The `post_save` signal on `RouteStop`
(routes/signals.py) funnels into the same recomputation. -/
def routeSave (dist : Point → Point → ℚ) (r : Route) : Route :=
  update_completion_status (update_distance_and_duration dist r)

/-- Replace the status of the stop at list position `i`. -/
def setStop (stops : List RouteStop) (i : ℕ) (st : String) : List RouteStop :=
  stops.enum.map (fun p => if p.1 = i then { p.2 with status := st } else p.2)

/-- A generic stop mutation: the stop at position `i` gets status `st` and is
saved, upon which the `post_save` signal recomputes and saves the parent
route (routes/signals.py lines 5-16). -/
def markStop (dist : Point → Point → ℚ) (r : Route) (i : ℕ) (st : String) : Route :=
  routeSave dist { r with stops := setStop r.stops i st }

/-- `RouteViewSet.start_route` (routes/views.py lines 239-281).  Returns the
HTTP success flag and the resulting route state.  On the guard failure the
route is untouched.  On success the view sets `actual_start` and status
`"in_progress"` and saves — and the overridden `Route.save` then re-derives
the status — after which the pending stops are moved to `"in_progress"` by a
queryset update (which fires no signal and no further recomputation). -/
def start_route (dist : Point → Point → ℚ) (r : Route) (now : ℕ) : Bool × Route :=
  if r.status = "assigned" ∨ r.status = "draft" then
    let r1 := routeSave dist { r with actual_start := some now, status := "in_progress" }
    (true, { r1 with
      stops := r1.stops.map (fun s =>
        if s.status = "pending" then { s with status := "in_progress" } else s) })
  else (false, r)

/-- Result of `auto_close`: success flag, resulting route, and the incentive
amount computed for the summary. -/
structure AutoCloseResult where
  ok : Bool
  route : Route
  incentive : Option ℚ
deriving DecidableEq

/-- `RouteViewSet.auto_close` (routes/views.py lines 335-384).  Guard: no
stop may be `"pending"` or `"in_progress"`.  Then the view sets status
`"completed"` with `actual_end` and saves (the overridden `Route.save`
re-derives status and analytics), counts the stops whose own status is
`"completed"`, and computes `completed * 10 + total_distance_km * 0.5`.
The subsequent crediting writes `collector.incentive_balance`, a field the
`Collector` model does not have, so only the computed amount is modelled. -/
def auto_close (dist : Point → Point → ℚ) (r : Route) (now : ℕ) : AutoCloseResult :=
  if r.stops.any (fun s => s.status = "pending" ∨ s.status = "in_progress") then
    ⟨false, r, none⟩
  else
    let r1 := routeSave dist { r with status := "completed", actual_end := some now }
    let completed_stops := (r1.stops.filter (fun s => s.status = "completed")).length
    ⟨true, r1, some ((completed_stops : ℚ) * 10 + r1.total_distance_km * (1 / 2))⟩

/-- `ScheduledRequest.REQUEST_STATUS_CHOICES` (scheduled_request/models.py
lines 7-13); the DRF update serializer validates `request_status` against
this list. -/
def REQUEST_STATUS_CHOICES : List String :=
  ["pending", "assigned", "in_progress", "completed", "cancelled"]

/-- The state touched by `ScheduledRequestViewSet.complete`: the request row
(status, completion timestamp, location) and its assigned collector. -/
structure SchedState where
  request_status : String
  completed_at : Option ℕ
  location : Option Point
  collector : Option Collector
deriving DecidableEq

/-- Outcome of the scheduled `complete` view: HTTP success flag, error
message, and the persisted state (which may differ from the initial state
even when an error is returned). -/
structure SchedResult where
  ok : Bool
  error : Option String
  state : SchedState
deriving DecidableEq

/-- `ScheduledRequestViewSet.complete` (scheduled_request/views.py lines
107-153).  Order of operations as in the source: missing-collector check,
missing-coordinate check, then the collector GPS is saved, then the
geodesic-distance rule runs.  In the 100-300 m band the view writes
`request_status = "suspected"` into the payload, but `"suspected"` is not
among `REQUEST_STATUS_CHOICES`, so the update serializer rejects it.  On
success the serializer also overwrites the request location with the
reported coordinates (ScheduledRequestUpdateSerializer.update). -/
def scheduled_complete (dist : Point → Point → ℚ) (st : SchedState)
    (lat lng : Option ℚ) (now : ℕ) : SchedResult :=
  match st.collector with
  | none => ⟨false, some "Cannot complete request without an assigned collector.", st⟩
  | some c =>
    match lat, lng with
    | some la, some ln =>
      let st1 : SchedState :=
        { st with collector := some { c with
            last_known_latitude := some la, last_known_longitude := some ln } }
      let finish : SchedResult :=
        ⟨true, none, { st1 with
          request_status := "completed", completed_at := some now,
          location := some ⟨ln, la⟩ }⟩
      match st.location with
      | some loc =>
        let distance_m := dist loc ⟨ln, la⟩
        if distance_m > 300 then
          ⟨false, some "Completion rejected: collector too far from client.", st1⟩
        else if distance_m > 100 then
          if "suspected" ∈ REQUEST_STATUS_CHOICES then
            ⟨true, none, { st1 with
              request_status := "suspected", completed_at := some now,
              location := some ⟨ln, la⟩ }⟩
          else ⟨false, some "request_status is not a valid choice.", st1⟩
        else finish
      | none => finish
    | _, _ => ⟨false, some "Latitude and longitude are required.", st⟩

/-- The state touched by the on-demand `complete` view: the request row and
its collector. -/
structure OnDemandState where
  request_status : String
  completed_at : Option ℕ
  quoted_price : Option ℚ
  final_price : Option ℚ
  collector : Option Collector
deriving DecidableEq

/-- Outcome of the on-demand `complete` view. -/
structure OnDemandResult where
  ok : Bool
  state : OnDemandState
deriving DecidableEq

/-- `OnDemandRequestViewSet.complete` (on_demand/views.py lines 1006-1069).
The source carries TODO markers for verifying the collector and validating
location proximity: no distance check is performed.  The collector GPS is
overwritten with whatever coordinates were posted (possibly none) and the
request is unconditionally marked completed, with `final_price` defaulting
to the quoted price.  A missing collector surfaces as an attribute error. -/
def on_demand_complete (st : OnDemandState) (lat lng : Option ℚ)
    (final_price : Option ℚ) (now : ℕ) : OnDemandResult :=
  match st.collector with
  | none => ⟨false, st⟩
  | some c =>
    ⟨true, { st with
      collector := some { c with
        last_known_latitude := lat, last_known_longitude := lng },
      request_status := "completed",
      completed_at := some now,
      final_price := match final_price with
        | some p => some p
        | none => st.quoted_price }⟩

/-- `routes.services.auto_generate_stops` reads clients of the zone with an
annotated distance from the zone center; this is that directory row. -/
structure Client where
  property_type : String
  location : Point
  distance : ℚ
deriving DecidableEq

/-- Stable insertion into a client list sorted by ascending annotated
distance. -/
def insertByDistance (c : Client) : List Client → List Client
  | [] => [c]
  | t :: ts => if c.distance ≤ t.distance then c :: t :: ts else t :: insertByDistance c ts

/-- `order_by('distance')` over the annotated clients queryset. -/
def sortByDistance : List Client → List Client
  | [] => []
  | c :: cs => insertByDistance c (sortByDistance cs)

/-- The per-category expected minutes of the first loop of
`auto_generate_stops`: 5 for residential, 10 for commercial, 7 otherwise. -/
def expectedMinutesFor (property_type : String) : ℕ :=
  if property_type = "residential" then 5
  else if property_type = "commercial" then 10
  else 7

/-- `routes.services.auto_generate_stops` (routes/services.py lines 6-61).
The first `for` loop only computes `expected_minutes`, leaving the value for
the LAST client; the second loop then builds every stop with that single
leftover value, with order 1..N along the distance-sorted clients.  (The
source also passes a `client=` keyword that `RouteStop` has no field for;
the stop rows are modelled as the constructor arguments that do exist.) -/
def auto_generate_stops (clients : List Client) : List RouteStop :=
  let sorted := sortByDistance clients
  match (sorted.map (fun c => expectedMinutesFor c.property_type)).getLast? with
  | none => []
  | some expected_minutes =>
    sorted.enum.map (fun p =>
      { order := p.1 + 1, ondemand_request := none, scheduled_request := none,
        location := p.2.location, expected_minutes := expected_minutes,
        actual_end := none, status := "pending" })

/-! ## Specification-side formulations

These definitions follow the wording of the specification (or of an amended
claim) and are compared against the source-derived functions above. -/

/-- Spec-side counting rule, amended claim C10: a stop counts as completed
iff its linked on-demand request is completed, or its linked scheduled
request is completed, or its own status is `"completed"`. -/
def countedAsCompletedSpec (s : RouteStop) : Bool :=
  reqCompleted s.ondemand_request || reqCompleted s.scheduled_request
    || decide (s.status = "completed")

/-- The counting rule as claim C10 states it: for a stop linked to a request
only the request status decides; the stop status is consulted only when no
request is linked. -/
def countedPerClaimC10 (s : RouteStop) : Bool :=
  match s.ondemand_request with
  | some q => q.request_status = "completed"
  | none =>
    match s.scheduled_request with
    | some q => q.request_status = "completed"
    | none => s.status = "completed"

/-- Spec-side completion percent, amended claim C1: 0 with no stops, else
the integer truncation (floor) of `100 * completed / total`. -/
def pctSpec (stops : List RouteStop) : ℤ :=
  if stops.length = 0 then 0
  else ((completedCount stops * 100) / stops.length : ℕ)

/-- Spec-side status derivation, amended claim C1: untouched with no stops
or when cancelled; completed at 100 percent; in progress when some stop is
completed; a draft stays draft; anything else becomes assigned. -/
def statusSpec (prev : String) (stops : List RouteStop) : String :=
  if stops.length = 0 then prev
  else if prev = "cancelled" then prev
  else if pctSpec stops = 100 then "completed"
  else if completedCount stops > 0 then "in_progress"
  else if prev = "draft" then prev
  else "assigned"

/-- Spec-side route length, claim C4: the sum of the distances between
consecutive stop coordinates (meters, under the supplied metric). -/
def specPairwiseMeters (dist : Point → Point → ℚ) (stops : List RouteStop) : ℚ :=
  ((stops.zip stops.tail).map (fun p => dist (stopLoc p.1) (stopLoc p.2))).sum

/-- A degenerate metric used to evaluate the embedding on concrete inputs
where the distance value is irrelevant. -/
def dist0 : Point → Point → ℚ := fun _ _ => 0

/-- A constant metric reporting every pair of points 150 meters apart. -/
def dist150 : Point → Point → ℚ := fun _ _ => 150

/-- A constant metric reporting every pair of points 1000 meters apart. -/
def dist1000 : Point → Point → ℚ := fun _ _ => 1000

/-- An unlinked stop with the given order and status, at the origin. -/
def plainStop (order : ℕ) (st : String) : RouteStop :=
  { order := order, ondemand_request := none, scheduled_request := none,
    location := ⟨0, 0⟩, expected_minutes := 5, actual_end := none, status := st }

/-- A route with the given status and stops and zeroed analytics. -/
def mkRoute (st : String) (stops : List RouteStop) : Route :=
  { status := st, completion_percent := 0, total_distance_km := 0,
    estimated_duration_min := 0, actual_start := none, actual_end := none,
    stops := stops }

/-- Example input shared by several evaluations: a request in progress at the
origin whose collector has no recorded GPS yet. -/
def exSched : SchedState :=
  ⟨"in_progress", none, some ⟨0, 0⟩, some ⟨0, none, none⟩⟩

/-- Example stop linked to a pending on-demand request while its own status
is already `"completed"`. -/
def linkedPendingStop : RouteStop :=
  { plainStop 1 "completed" with ondemand_request := some ⟨"pending", none⟩ }

/-! ## Helper lemmas -/

lemma udd_stops (dist : Point → Point → ℚ) (r : Route) :
    (update_distance_and_duration dist r).stops = r.stops := by
  simp only [update_distance_and_duration]
  split <;> rfl

lemma udd_status (dist : Point → Point → ℚ) (r : Route) :
    (update_distance_and_duration dist r).status = r.status := by
  simp only [update_distance_and_duration]
  split <;> rfl

lemma udd_pct (dist : Point → Point → ℚ) (r : Route) :
    (update_distance_and_duration dist r).completion_percent = r.completion_percent := by
  simp only [update_distance_and_duration]
  split <;> rfl

lemma ucs_pct (r : Route) :
    (update_completion_status r).completion_percent = pctSpec r.stops := by
  simp only [update_completion_status, pctSpec]
  split_ifs <;> rfl

lemma ucs_status (r : Route) :
    (update_completion_status r).status = statusSpec r.status r.stops := by
  by_cases h0 : r.stops.length = 0
  · simp [update_completion_status, statusSpec, h0]
  · have hp : pctSpec r.stops = ((completedCount r.stops * 100) / r.stops.length : ℕ) := by
      simp [pctSpec, h0]
    simp only [update_completion_status, statusSpec, h0, hp, if_false, if_neg]
    split_ifs <;> rfl

lemma consecDist_eq (dist : Point → Point → ℚ) :
    ∀ ss : List RouteStop, consecDist dist ss = specPairwiseMeters dist ss / 1000
  | [] => by simp [consecDist, specPairwiseMeters]
  | [_] => by simp [consecDist, specPairwiseMeters]
  | a :: b :: rest => by
    have ih := consecDist_eq dist (b :: rest)
    simp only [consecDist, specPairwiseMeters, List.tail_cons, List.zip_cons_cons,
      List.map_cons, List.sum_cons] at ih ⊢
    rw [ih]
    ring

lemma sumExpected_eq : ∀ ss : List RouteStop,
    sumExpected ss = (ss.map (fun s => s.expected_minutes)).sum
  | [] => rfl
  | s :: ss => by
    have ih := sumExpected_eq ss
    by_cases h : s.expected_minutes = 0 <;>
      simp [sumExpected, List.filter_cons, h] at ih ⊢ <;> omega

lemma length_insertByOrder (s : RouteStop) :
    ∀ ss : List RouteStop, (insertByOrder s ss).length = ss.length + 1
  | [] => rfl
  | t :: ts => by
    simp only [insertByOrder]
    split
    · rfl
    · simp [List.length_cons, length_insertByOrder s ts]

lemma length_sortByOrder : ∀ ss : List RouteStop, (sortByOrder ss).length = ss.length
  | [] => rfl
  | s :: ss => by
    simp [sortByOrder, length_insertByOrder, length_sortByOrder ss]

lemma countsCompleted_eq (s : RouteStop) :
    countsCompleted s = countedAsCompletedSpec s := by
  simp only [countsCompleted, countedAsCompletedSpec]
  cases h1 : reqCompleted s.ondemand_request <;>
    cases h2 : reqCompleted s.scheduled_request <;> simp

lemma udd_congr (dist : Point → Point → ℚ) (r₁ r₂ : Route) (h : r₁.stops = r₂.stops) :
    (update_distance_and_duration dist r₁).total_distance_km
      = (update_distance_and_duration dist r₂).total_distance_km
    ∧ (update_distance_and_duration dist r₁).estimated_duration_min
      = (update_distance_and_duration dist r₂).estimated_duration_min := by
  simp only [update_distance_and_duration, h]
  constructor <;> split <;> rfl

/-! ## Claim theorems -/

/-- Claim C1, counterexample: the claim says the derived
`completion_percent` equals `round(100 * completed_stops / total_stops)`,
but with 2 of 3 stops completed after a stop mutation the code stores the
truncation 66 while the claimed rounding gives 67. -/
theorem C1_counterexample :
    (markStop dist0 (mkRoute "in_progress"
        [plainStop 1 "completed", plainStop 2 "completed", plainStop 3 "in_progress"])
      2 "failed").completion_percent = 66
    ∧ round ((100 * (2 : ℚ)) / 3) = 67 := by
  constructor
  · decide
  · norm_num [round_eq]

/-- Claim C1, amended: after a stop mutation the recomputed route satisfies
`completion_percent = floor(100 * completed_stops / total_stops)` (0 with no
stops) and the status is re-derived exactly as claimed, except that with no
stops the status is also left untouched. -/
theorem C1_amended (dist : Point → Point → ℚ) (r : Route) (i : ℕ) (st : String) :
    (markStop dist r i st).completion_percent = pctSpec (setStop r.stops i st)
    ∧ (markStop dist r i st).status = statusSpec r.status (setStop r.stops i st) := by
  unfold markStop routeSave
  constructor
  · rw [ucs_pct, udd_stops]
  · rw [ucs_status, udd_stops, udd_status]

/-- Claim C3, counterexample: a route whose status is `"completed"` does not
keep it across a stop mutation — marking one of the two completed stops
`"failed"` re-derives the status to `"in_progress"`. -/
theorem C3_counterexample :
    (mkRoute "completed" [plainStop 1 "completed", plainStop 2 "completed"]).status
      = "completed"
    ∧ (markStop dist0
        (mkRoute "completed" [plainStop 1 "completed", plainStop 2 "completed"])
        1 "failed").status = "in_progress" := by
  decide

/-- Claim C3, amended: only cancellation is sticky — once a route is
`"cancelled"` no stop mutation changes its status (a `"completed"` route can
regress, as the counterexample shows). -/
theorem C3_amended (dist : Point → Point → ℚ) (r : Route) (i : ℕ) (st : String)
    (h : r.status = "cancelled") :
    (markStop dist r i st).status = "cancelled" := by
  unfold markStop routeSave
  rw [ucs_status, udd_stops, udd_status]
  have hs : (Route.mk r.status r.completion_percent r.total_distance_km
      r.estimated_duration_min r.actual_start r.actual_end (setStop r.stops i st)).status
      = r.status := rfl
  simp only [statusSpec, hs, h]
  split_ifs <;> rfl

/-- Claim C3, witness: the amended theorem applied to a concrete cancelled
route with one pending stop. -/
theorem C3_witness :
    (markStop dist0 (mkRoute "cancelled" [plainStop 1 "pending"]) 0 "completed").status
      = "cancelled" :=
  C3_amended dist0 (mkRoute "cancelled" [plainStop 1 "pending"]) 0 "completed" rfl

/-- Claim C9: the metrics recomputation is idempotent — applying
`update_distance_and_duration` twice yields the same stored distance and
duration as applying it once. -/
theorem C9_idempotent (dist : Point → Point → ℚ) (r : Route) :
    (update_distance_and_duration dist
        (update_distance_and_duration dist r)).total_distance_km
      = (update_distance_and_duration dist r).total_distance_km
    ∧ (update_distance_and_duration dist
        (update_distance_and_duration dist r)).estimated_duration_min
      = (update_distance_and_duration dist r).estimated_duration_min :=
  udd_congr dist (update_distance_and_duration dist r) r (udd_stops dist r)

/-- Claim C10, counterexample: a stop linked to a pending on-demand request
but whose own status is `"completed"` is counted as completed by
`update_completion_status` (the own-status fallback also applies to linked
stops), contrary to the claim that only the linked request status decides. -/
theorem C10_counterexample :
    countsCompleted linkedPendingStop = true
    ∧ countedPerClaimC10 linkedPendingStop = false
    ∧ (update_completion_status
        (mkRoute "in_progress" [linkedPendingStop])).completion_percent = 100 := by
  decide

/-- Claim C10, amended: a stop is counted as completed iff its linked
on-demand request is completed, or its linked scheduled request is
completed, or its own status is `"completed"` — the own-status fallback is
consulted for every stop whose linked requests are not completed, not only
for unlinked stops. -/
theorem C10_amended (r : Route) :
    (update_completion_status r).completion_percent =
      if r.stops.length = 0 then 0
      else (((r.stops.filter (fun s => countedAsCompletedSpec s)).length * 100)
        / r.stops.length : ℕ) := by
  rw [ucs_pct]
  simp [pctSpec, completedCount, countsCompleted_eq]

/-- Claim C4, counterexample: with a single stop whose expected service time
is 5 minutes the claim says the estimated duration is 5 minutes, but
`update_distance_and_duration` zeroes the duration whenever there are fewer
than 2 stops. -/
theorem C4_counterexample :
    (update_distance_and_duration dist0
        (mkRoute "assigned" [plainStop 1 "pending"])).estimated_duration_min = 0
    ∧ (sumExpected [plainStop 1 "pending"] : ℚ) = 5 := by
  decide

/-- Claim C4, amended: with fewer than 2 stops both the distance and the
duration are 0; with 2 or more stops the distance is the pairwise sum over
the order-sorted stops divided by 1000 and rounded to 3 decimals, and the
duration is travel time at 40 km/h over the unrounded distance plus the sum
of all expected per-stop minutes. -/
theorem C4_amended (dist : Point → Point → ℚ) (r : Route) :
    (r.stops.length < 2 →
      (update_distance_and_duration dist r).total_distance_km = 0
      ∧ (update_distance_and_duration dist r).estimated_duration_min = 0)
    ∧ (2 ≤ r.stops.length →
      (update_distance_and_duration dist r).total_distance_km
        = round3 (specPairwiseMeters dist (sortByOrder r.stops) / 1000)
      ∧ (update_distance_and_duration dist r).estimated_duration_min
        = (specPairwiseMeters dist (sortByOrder r.stops) / 1000) / 40 * 60
          + (((sortByOrder r.stops).map (fun s => s.expected_minutes)).sum : ℚ)) := by
  have hl := length_sortByOrder r.stops
  constructor <;> intro h
  · have h1 : (sortByOrder r.stops).length < 2 := by omega
    simp [update_distance_and_duration, h1]
  · have h2 : ¬ (sortByOrder r.stops).length < 2 := by omega
    simp [update_distance_and_duration, h2, consecDist_eq, sumExpected_eq]
    rfl

/-- Claim C4, witness: the amended theorem applied to a concrete two-stop
route under the constant 1000 m metric. -/
theorem C4_witness :
    (update_distance_and_duration dist1000
        (mkRoute "assigned" [plainStop 1 "pending", plainStop 2 "pending"])).total_distance_km
      = round3 (specPairwiseMeters dist1000
          (sortByOrder (mkRoute "assigned"
            [plainStop 1 "pending", plainStop 2 "pending"]).stops) / 1000)
    ∧ (update_distance_and_duration dist1000
        (mkRoute "assigned" [plainStop 1 "pending", plainStop 2 "pending"])).estimated_duration_min
      = (specPairwiseMeters dist1000
          (sortByOrder (mkRoute "assigned"
            [plainStop 1 "pending", plainStop 2 "pending"]).stops) / 1000) / 40 * 60
        + (((sortByOrder (mkRoute "assigned"
            [plainStop 1 "pending", plainStop 2 "pending"]).stops).map
              (fun s => s.expected_minutes)).sum : ℚ) :=
  (C4_amended dist1000
    (mkRoute "assigned" [plainStop 1 "pending", plainStop 2 "pending"])).2 (by decide)

/-- Claim C5, code evaluation at the failing input: a route with one
completed and one skipped stop passes the auto-close guard, the incentive is
computed as claimed (1 * 10 + 0 * 0.5 = 10) and `actual_end` is stamped, but
the persisted status is `"in_progress"`, not `"completed"`, because the
overridden `Route.save` re-derives the status from stop completion. -/
theorem C5_autoclose_eval :
    (auto_close dist0
        (mkRoute "in_progress" [plainStop 1 "completed", plainStop 2 "skipped"]) 9).ok = true
    ∧ (auto_close dist0
        (mkRoute "in_progress" [plainStop 1 "completed", plainStop 2 "skipped"]) 9).route.status
      = "in_progress"
    ∧ (auto_close dist0
        (mkRoute "in_progress" [plainStop 1 "completed", plainStop 2 "skipped"]) 9).route.actual_end
      = some 9
    ∧ (auto_close dist0
        (mkRoute "in_progress" [plainStop 1 "completed", plainStop 2 "skipped"]) 9).incentive
      = some 10 := by
  refine ⟨by decide, by decide, by decide, ?_⟩
  simp +decide [auto_close, routeSave, update_completion_status, update_distance_and_duration,
    sortByOrder, insertByOrder, consecDist, round3, sumExpected, completedCount,
    countsCompleted, reqCompleted, plainStop, mkRoute, dist0, stopLoc]

/-- Claim C8, code evaluation at the failing input: starting an assigned
route with one pending stop succeeds, stamps `actual_start` and moves the
stop to `"in_progress"`, but the route status ends as `"assigned"` — the
overridden `Route.save` re-derives it from stop completion immediately after
the view wrote `"in_progress"`. -/
theorem C8_startroute_eval :
    (start_route dist0 (mkRoute "assigned" [plainStop 1 "pending"]) 3).1 = true
    ∧ (start_route dist0 (mkRoute "assigned" [plainStop 1 "pending"]) 3).2.status = "assigned"
    ∧ (start_route dist0 (mkRoute "assigned" [plainStop 1 "pending"]) 3).2.actual_start = some 3
    ∧ ((start_route dist0 (mkRoute "assigned" [plainStop 1 "pending"]) 3).2.stops.map
        (fun s => s.status)) = ["in_progress"] := by
  decide

/-- Claim C2, code evaluation: the on-demand completion performs no distance
check at all — it marks the request completed whatever coordinates are
posted — and the scheduled completion in the 100-300 m band returns a
validation error (the flag value `"suspected"` is not a valid
`request_status` choice) instead of flagging the request. -/
theorem C2_gps_eval :
    (on_demand_complete ⟨"in_progress", none, some 20, none, some ⟨0, none, none⟩⟩
        (some 50) (some 50) none 5).state.request_status = "completed"
    ∧ (on_demand_complete ⟨"in_progress", none, some 20, none, some ⟨0, none, none⟩⟩
        (some 50) (some 50) none 5).ok = true
    ∧ (scheduled_complete dist150 exSched (some 5) (some 6) 7).ok = false
    ∧ (scheduled_complete dist150 exSched (some 5) (some 6) 7).state.request_status
      = "in_progress" := by
  decide

/-- Claim C7, counterexample: a scheduled completion rejected for distance
(here every pair of points is 1000 m apart) still mutates state — the
collector GPS was saved before the validation ran. -/
theorem C7_counterexample :
    (scheduled_complete dist1000 exSched (some 5) (some 6) 7).ok = false
    ∧ (scheduled_complete dist1000 exSched (some 5) (some 6) 7).state ≠ exSched := by
  decide

/-- Claim C7, amended: on the error path `start_route` and `auto_close`
leave the route unchanged, and the scheduled completion leaves the request
row (status, completion timestamp, location) unchanged — but not necessarily
the collector, whose last-known GPS is persisted before the distance
validation. -/
theorem C7_amended (dist : Point → Point → ℚ) (r : Route) (now : ℕ)
    (st : SchedState) (lat lng : Option ℚ) :
    ((start_route dist r now).1 = false → (start_route dist r now).2 = r)
    ∧ ((auto_close dist r now).ok = false → (auto_close dist r now).route = r)
    ∧ ((scheduled_complete dist st lat lng now).ok = false →
        (scheduled_complete dist st lat lng now).state.request_status = st.request_status
        ∧ (scheduled_complete dist st lat lng now).state.completed_at = st.completed_at
        ∧ (scheduled_complete dist st lat lng now).state.location = st.location) := by
  refine ⟨?_, ?_, ?_⟩
  · unfold start_route
    split <;> simp
  · unfold auto_close
    split <;> simp
  · unfold scheduled_complete
    split
    · simp
    · split
      · dsimp only
        split
        · split_ifs <;> simp
        · simp
      · simp

/-- Claim C7, witness: the amended theorem applied to the concrete rejected
scheduled completion of the counterexample. -/
theorem C7_witness :
    (scheduled_complete dist1000 exSched (some 5) (some 6) 7).state.request_status
      = exSched.request_status
    ∧ (scheduled_complete dist1000 exSched (some 5) (some 6) 7).state.completed_at
      = exSched.completed_at
    ∧ (scheduled_complete dist1000 exSched (some 5) (some 6) 7).state.location
      = exSched.location :=
  (C7_amended dist1000 (mkRoute "draft" []) 7 exSched (some 5) (some 6)).2.2 (by decide)

/-- Claim C6, code evaluation at the failing input: two clients, the nearer
residential and the farther commercial.  The generated stops are ordered 1, 2
by ascending distance from the zone center as claimed, but both receive the
expected minutes of the LAST client (10, commercial) — the per-category value
for the residential client would be 5.  The first loop of
`auto_generate_stops` computes the per-client value and discards all but the
last. -/
theorem C6_autogen_eval :
    ((auto_generate_stops [⟨"residential", ⟨0, 0⟩, 1⟩, ⟨"commercial", ⟨1, 1⟩, 2⟩]).map
        (fun s => (s.order, s.expected_minutes)))
      = [(1, 10), (2, 10)]
    ∧ expectedMinutesFor "residential" = 5 := by
  decide

end WMS
